import Mathlib

/-!
Shallow embedding of the report validator in `test.py` of the ctimer
repository.  The validator (`run_one`) launches the `ctimer` supervisor on a
sample child program, then reads the JSON report the supervisor wrote to the
file named by the `CTIMER_STATS` environment variable and checks its shape and
contents against the expectations recorded in the `TESTS` table.

The embedding models the parsed JSON value (what Python's `json.load`
returns), the two field-checking helpers `_has_primary_field` and
`_has_secondary_field`, the full check sequence of `run_one`, and the seven
entries of `TESTS`.  Machine floats are modelled as rationals (the report
times are plain decimal numbers and the checks only compare them), and the
file-system/process side of `run_one` is modelled by explicit state passing
(`RunEnv`): the supervisor's exit code and the content of the stats file.

Python-semantics points carried over faithfully:
* `isinstance(x, int)` is true for booleans (`bool` is a subclass of `int`),
  so the integer-typed fields of the report also admit JSON booleans;
* `==` between numbers compares values across `bool`/`int`/`float`;
* the diagnostic in the max-rss failure branch applies `"%d"` to the
  `test_item["maxrss"]` lambda, which raises `TypeError`; the diagnostic in
  the total-time failure branch reads `test_item["times_ms"]`, a key the test
  item does not have, which raises `KeyError` — both modelled with `Except`.
-/

/-- A value produced by Python's `json.load`: `null`, booleans, integers,
floats (modelled as `Rat`), strings, arrays, and objects (association lists;
`json.load` yields dictionaries, whose keys are unique). -/
inductive PyVal : Type where
  | vnull : PyVal
  | vbool : Bool → PyVal
  | vint : Int → PyVal
  | vfloat : Rat → PyVal
  | vstr : String → PyVal
  | vlist : List PyVal → PyVal
  | vdict : List (String × PyVal) → PyVal

/-- First binding of a key in an association list (keys of a dictionary
produced by `json.load` are unique, so first = only). -/
def lookupKey (k : String) : List (String × PyVal) → Option PyVal
  | [] => none
  | (k', v) :: rest => if k' = k then some v else lookupKey k rest

/-- Dictionary lookup, `none` on a non-dictionary or a missing key. -/
def PyVal.lookup? : PyVal → String → Option PyVal
  | .vdict fs, k => lookupKey k fs
  | _, _ => none

/-- Dictionary access `d[k]`; only used after the validator has established
presence, so the `vnull` default is never observed. -/
def PyVal.getKey (d : PyVal) (k : String) : PyVal :=
  (d.lookup? k).getD .vnull

/-- Python `len` of a dictionary. -/
def PyVal.size : PyVal → Nat
  | .vdict fs => fs.length
  | _ => 0

/-- The `obj_type` arguments the validator passes to `isinstance`. -/
inductive PyType : Type where
  | tInt : PyType
  | tFloat : PyType
  | tStr : PyType
  | tDict : PyType

/-- Python `isinstance` for the types used by the validator.  Booleans are
instances of `int` (Python's `bool` is a subclass of `int`); integers are not
instances of `float`. -/
def pyIsInstance : PyVal → PyType → Bool
  | .vint _, .tInt => true
  | .vbool _, .tInt => true
  | .vfloat _, .tFloat => true
  | .vstr _, .tStr => true
  | .vdict _, .tDict => true
  | _, _ => false

/-- Numeric value of a Python object, when it is a number (`bool` counts,
with `True == 1` and `False == 0`). -/
def PyVal.toNum? : PyVal → Option Rat
  | .vint n => some (n : Rat)
  | .vbool b => some (if b then 1 else 0)
  | .vfloat q => some q
  | _ => none

/-- Python `==` restricted to the values the validator actually compares
(numbers, strings and `None`; compound values never reach a comparison in
`run_one` because the type checks run first). -/
def pyEq (a b : PyVal) : Bool :=
  match a.toNum?, b.toNum? with
  | some x, some y => decide (x = y)
  | some _, none => false
  | none, some _ => false
  | none, none =>
    match a, b with
    | .vstr s, .vstr t => decide (s = t)
    | .vnull, .vnull => true
    | _, _ => false

/-- Integer value of a report field already checked with `isinstance(·, int)`. -/
def PyVal.asInt : PyVal → Int
  | .vint n => n
  | .vbool b => if b then 1 else 0
  | _ => 0

/-- Float value of a report field already checked with `isinstance(·, float)`. -/
def PyVal.asFloat : PyVal → Rat
  | .vfloat q => q
  | _ => 0

/-- String value of a report field already checked with `isinstance(·, str)`. -/
def PyVal.asStr : PyVal → String
  | .vstr s => s
  | _ => ""

/-- `l` contains `pat` as a contiguous sublist. -/
def charsHaveSubstr (l pat : List Char) : Bool :=
  (List.range (l.length + 1)).any fun i => pat.isPrefixOf (l.drop i)

/-- ASCII lower-casing of one character (the signal descriptions the check
runs on are ASCII). -/
def asciiLower (c : Char) : Char :=
  if 'A' ≤ c ∧ c ≤ 'Z' then Char.ofNat (c.toNat + 32) else c

/-- `re.compile(r".*kill.*", re.IGNORECASE).match s` is truthy exactly when
`kill` occurs case-insensitively in the first line of `s` (`.` in a Python
regular expression does not match a newline and `re.match` anchors at the
start, so the pattern can only find `kill` before the first newline). -/
def matchKillCI (s : String) : Bool :=
  charsHaveSubstr ((s.data.takeWhile fun c => c ≠ '\n').map asciiLower)
    [ 'k', 'i', 'l', 'l' ]

/-- The `child_exit_desc` of a test item: either a plain string (compared for
equality) or the one compiled regular expression appearing in `TESTS`,
`re.compile(r".*kill.*", re.IGNORECASE)`. -/
inductive DescSpec : Type where
  | lit : String → DescSpec
  | killRegexCI : DescSpec

/-- The desc check of `run_one`: string items are compared with `==`, the
regex item with `.match`. -/
def DescSpec.check : DescSpec → PyVal → Bool
  | .lit s, v => pyEq v (.vstr s)
  | .killRegexCI, v => matchKillCI v.asStr

/-- One entry of the `TESTS` table of `test.py`. -/
structure TestItem : Type where
  file : String
  child_exit : String
  child_exit_repr : Option Int
  child_exit_desc : DescSpec
  time : Rat → Bool
  maxrss : Int → Bool

/-- The Python value of `test_item["child_exit_repr"]` (`None` or an int). -/
def TestItem.reprPy (i : TestItem) : PyVal :=
  match i.child_exit_repr with
  | none => .vnull
  | some n => .vint n

def test_infinite_py : TestItem :=
  { file := "samples/infinite.py"
    child_exit := "timeout"
    child_exit_repr := some 1500
    child_exit_desc := .lit "child runtime limit (ms)"
    time := fun t => decide (1500 ≤ t)
    maxrss := fun v => decide (1000 ≤ v) }

def test_infinite_sh : TestItem :=
  { file := "samples/infinite.sh"
    child_exit := "timeout"
    child_exit_repr := some 1500
    child_exit_desc := .lit "child runtime limit (ms)"
    time := fun t => decide (1500 ≤ t)
    maxrss := fun v => decide (1000 ≤ v) }

def test_quick_py : TestItem :=
  { file := "samples/quick.py"
    child_exit := "return"
    child_exit_repr := some 0
    child_exit_desc := .lit "exit code"
    time := fun t => decide (t < 500)
    maxrss := fun v => decide (1000 ≤ v) }

def test_sigkill_py : TestItem :=
  { file := "samples/sigkill.py"
    child_exit := "signal"
    child_exit_repr := some 9
    child_exit_desc := .killRegexCI
    time := fun t => decide (t < 500)
    maxrss := fun v => decide (1000 ≤ v) }

def test_sleep_py : TestItem :=
  { file := "samples/sleep.py"
    child_exit := "return"
    child_exit_repr := some 0
    child_exit_desc := .lit "exit code"
    time := fun t => decide (t < 500)
    maxrss := fun v => decide (1000 ≤ v) }

def test_missing : TestItem :=
  { file := "samples/missing"
    child_exit := "quit"
    child_exit_repr := none
    child_exit_desc := .lit "child error before exec"
    time := fun t => decide (t < 50)
    maxrss := fun v => decide (1000 ≤ v) }

def test_text_txt : TestItem :=
  { file := "samples/text.txt"
    child_exit := "quit"
    child_exit_repr := none
    child_exit_desc := .lit "child error before exec"
    time := fun t => decide (t < 50)
    maxrss := fun v => decide (1000 ≤ v) }

/-- The `TESTS` table of `test.py`, in source order. -/
def TESTS : List TestItem :=
  [test_infinite_py, test_infinite_sh, test_quick_py, test_sigkill_py,
   test_sleep_py, test_missing, test_text_txt]

/-- `_has_primary_field(key, obj_type)`: the key is present in the result
dictionary and its value has the requested type. -/
def has_primary_field (d : PyVal) (k : String) (ty : PyType) : Bool :=
  match d.lookup? k with
  | none => false
  | some v => pyIsInstance v ty

/-- Whether a Python value is `None`. -/
def isNull : PyVal → Bool
  | .vnull => true
  | _ => false

/-- `_has_secondary_field(primary, key, obj_type, nullable)`: the key is
present in `d[primary]` and its value has the requested type, or is `None`
when `nullable` is set (the code returns `True` in that case). -/
def has_secondary_field (d : PyVal) (primary k : String) (ty : PyType)
    (nullable : Bool) : Bool :=
  match (d.getKey primary).lookup? k with
  | none => false
  | some v => pyIsInstance v ty || (nullable && isNull v)

/-- The conjunction of type/shape checks of `run_one` (the `isinstance`
check on the whole result plus the `_has_primary_field` /
`_has_secondary_field` chain, in source order). -/
def schema_check (d : PyVal) : Bool :=
  pyIsInstance d .tDict
    && has_primary_field d "pid" .tInt
    && has_primary_field d "maxrss_kb" .tInt
    && has_primary_field d "exit" .tDict
    && has_secondary_field d "exit" "type" .tStr false
    && has_secondary_field d "exit" "repr" .tInt true
    && has_secondary_field d "exit" "desc" .tStr false
    && has_primary_field d "times_ms" .tDict
    && has_secondary_field d "times_ms" "total" .tFloat false
    && has_secondary_field d "times_ms" "user" .tFloat false
    && has_secondary_field d "times_ms" "sys" .tFloat false

/-- An exception raised by `run_one` while checking a report. -/
inductive PyErr : Type where
  | typeError : PyErr
  | keyError : String → PyErr

/-- The check sequence `run_one` applies to the parsed report, in source
order.  `Except.ok b` is a normal return of `b`; the two failure branches
whose diagnostics are themselves faulty are modelled as exceptions:
the max-rss branch formats the lambda `test_item["maxrss"]` with `"%d"`
(raises `TypeError`), and the total-time branch reads the nonexistent key
`test_item["times_ms"]` (raises `KeyError`). -/
def run_one_checks (item : TestItem) (d : PyVal) : Except PyErr Bool :=
  if schema_check d = true then
    if d.size = 4 then
      if item.maxrss ((d.getKey "maxrss_kb").asInt) = true then
        if (d.getKey "exit").size = 3 then
          if (d.getKey "times_ms").size = 3 then
            if pyEq ((d.getKey "exit").getKey "type") (.vstr item.child_exit) = true then
              if pyEq ((d.getKey "exit").getKey "repr") item.reprPy = true then
                if item.child_exit_desc.check ((d.getKey "exit").getKey "desc") = true then
                  if item.time ((d.getKey "times_ms").getKey "total").asFloat = true then
                    .ok true
                  else .error (.keyError "times_ms")
                else .ok false
              else .ok false
            else .ok false
          else .ok false
        else .ok false
      else .error .typeError
    else .ok false
  else .ok false

/-- The name `test.py` passes to ctimer through the `CTIMER_STATS`
environment variable and reads the report back from. -/
def STATS_FILENAME : String := "stats.log"

/-- The observable environment of one `run_one` invocation: the exit code of
the `ctimer` supervisor process, and the content of the file named
`STATS_FILENAME` once the supervisor has finished (`none` when the file does
not exist). -/
structure RunEnv : Type where
  exit_code : Int
  stats_file : Option PyVal

/-- `run_one`, with the process/file-system effects made explicit: returns
the outcome (normal `True`/`False` or an exception from the faulty
diagnostic branches) together with the stats-file content after the call.
The code returns `False` when ctimer exits nonzero (file untouched), returns
`False` when the stats file is missing, and otherwise removes the file
immediately after parsing it, before any content check runs. -/
def run_one (item : TestItem) (env : RunEnv) :
    Except PyErr Bool × Option PyVal :=
  if env.exit_code ≠ 0 then (.ok false, env.stats_file)
  else
    match env.stats_file with
    | none => (.ok false, none)
    | some d => (run_one_checks item d, none)

/-- A well-formed report for the standard schema, used to build concrete
reports and to state that acceptance does not depend on `user`/`sys`. -/
def mkReport (pid mx : Int) (ty : String) (rp : PyVal) (dc : String)
    (total u s : Rat) : PyVal :=
  .vdict [("pid", .vint pid), ("maxrss_kb", .vint mx),
          ("exit", .vdict [("type", .vstr ty), ("repr", rp), ("desc", .vstr dc)]),
          ("times_ms", .vdict [("total", .vfloat total), ("user", .vfloat u),
                               ("sys", .vfloat s)])]

/-- A successful dictionary lookup determines `getKey`. -/
theorem getKey_eq_of_lookup {d : PyVal} {k : String} {v : PyVal}
    (h : d.lookup? k = some v) : d.getKey k = v := by
  simp [PyVal.getKey, h]

theorem isNull_iff {v : PyVal} : isNull v = true ↔ v = .vnull := by
  cases v <;> simp [isNull]

theorem isStr_iff {v : PyVal} :
    pyIsInstance v .tStr = true ↔ ∃ s, v = .vstr s := by
  cases v <;> simp [pyIsInstance]

theorem isFloat_iff {v : PyVal} :
    pyIsInstance v .tFloat = true ↔ ∃ q, v = .vfloat q := by
  cases v <;> simp [pyIsInstance]

theorem has_secondary_field_iff {d : PyVal} {p k : String} {ty : PyType}
    {nb : Bool} :
    has_secondary_field d p k ty nb = true ↔
      ∃ v, (d.getKey p).lookup? k = some v ∧
        (pyIsInstance v ty = true ∨ (nb = true ∧ v = .vnull)) := by
  cases h : (d.getKey p).lookup? k with
  | none => simp [has_secondary_field, h]
  | some v =>
      simp [has_secondary_field, h, Bool.or_eq_true, Bool.and_eq_true, isNull_iff]

/-- A non-nullable secondary field is present with the requested type. -/
theorem has_secondary_field_strict {d : PyVal} {p k : String} {ty : PyType}
    (h : has_secondary_field d p k ty false = true) :
    ∃ v, (d.getKey p).lookup? k = some v ∧ pyIsInstance v ty = true := by
  obtain ⟨v, hv, hty | ⟨hf, _⟩⟩ := has_secondary_field_iff.mp h
  · exact ⟨v, hv, hty⟩
  · simp at hf

theorem pyEq_vstr_iff {v : PyVal} {s : String} :
    pyEq v (.vstr s) = true ↔ v = .vstr s := by
  cases v <;> simp [pyEq, PyVal.toNum?]

theorem pyEq_vnull_iff {v : PyVal} : pyEq v .vnull = true ↔ v = .vnull := by
  cases v <;> simp [pyEq, PyVal.toNum?]

/-- Python `==` between an int-typed (or null) report field and an integer
literal other than `0`/`1` is plain constructor equality (a boolean can only
equal `0` or `1`, a null equals nothing numeric). -/
theorem pyEq_vint_of_intlike {v : PyVal} {e : Int}
    (hv : pyIsInstance v .tInt = true ∨ v = .vnull)
    (he0 : e ≠ 0) (he1 : e ≠ 1) :
    (pyEq v (.vint e) = true ↔ v = .vint e) := by
  rcases hv with hv | rfl
  · cases v with
    | vint n => simp [pyEq, PyVal.toNum?, Int.cast_inj]
    | vbool b =>
        cases b with
        | false =>
            simp only [pyEq, PyVal.toNum?, Bool.false_eq_true, if_false,
              decide_eq_true_eq]
            constructor
            · intro h; exact absurd (by exact_mod_cast h.symm) he0
            · intro h; cases h
        | true =>
            simp only [pyEq, PyVal.toNum?, if_true, decide_eq_true_eq]
            constructor
            · intro h; exact absurd (by exact_mod_cast h.symm) he1
            · intro h; cases h
    | vnull => simp [pyIsInstance] at hv
    | vfloat q => simp [pyIsInstance] at hv
    | vstr s => simp [pyIsInstance] at hv
    | vlist l => simp [pyIsInstance] at hv
    | vdict fs => simp [pyIsInstance] at hv
  · simp [pyEq, PyVal.toNum?]

/-- `run_one_checks` returns `True` exactly when every check in its sequence
passes. -/
theorem run_one_checks_eq_ok_true_iff (item : TestItem) (d : PyVal) :
    run_one_checks item d = .ok true ↔
      (schema_check d = true ∧ d.size = 4 ∧
       item.maxrss ((d.getKey "maxrss_kb").asInt) = true ∧
       (d.getKey "exit").size = 3 ∧ (d.getKey "times_ms").size = 3 ∧
       pyEq ((d.getKey "exit").getKey "type") (.vstr item.child_exit) = true ∧
       pyEq ((d.getKey "exit").getKey "repr") item.reprPy = true ∧
       item.child_exit_desc.check ((d.getKey "exit").getKey "desc") = true ∧
       item.time ((d.getKey "times_ms").getKey "total").asFloat = true) := by
  unfold run_one_checks
  split_ifs with h1 h2 h3 h4 h5 h6 h7 h8 h9 <;> simp_all

/-- The checks of `run_one` that do not depend on the exit/time expectations
of the test item: report schema, field counts, and the max-rss range (the
`maxrss` predicate is `lambda v: v >= 1000` for every entry of `TESTS`). -/
def generic_checks (item : TestItem) (d : PyVal) : Bool :=
  schema_check d && (d.size == 4)
    && item.maxrss ((d.getKey "maxrss_kb").asInt)
    && ((d.getKey "exit").size == 3) && ((d.getKey "times_ms").size == 3)

/-- Under the generic checks, acceptance is exactly the item-specific exit
and time checks. -/
theorem run_one_checks_ok_of_generic {item : TestItem} {d : PyVal}
    (hg : generic_checks item d = true) :
    (run_one_checks item d = .ok true ↔
      (pyEq ((d.getKey "exit").getKey "type") (.vstr item.child_exit) = true ∧
       pyEq ((d.getKey "exit").getKey "repr") item.reprPy = true ∧
       item.child_exit_desc.check ((d.getKey "exit").getKey "desc") = true ∧
       item.time ((d.getKey "times_ms").getKey "total").asFloat = true)) := by
  simp only [generic_checks, Bool.and_eq_true, beq_iff_eq] at hg
  obtain ⟨⟨⟨⟨hs, h4⟩, hm⟩, he⟩, ht⟩ := hg
  rw [run_one_checks_eq_ok_true_iff]
  simp [hs, h4, hm, he, ht]

/-- Unpacked form of the schema check. -/
theorem schema_unpack {d : PyVal} (hs : schema_check d = true) :
    pyIsInstance d .tDict = true ∧
    has_primary_field d "pid" .tInt = true ∧
    has_primary_field d "maxrss_kb" .tInt = true ∧
    has_primary_field d "exit" .tDict = true ∧
    has_secondary_field d "exit" "type" .tStr false = true ∧
    has_secondary_field d "exit" "repr" .tInt true = true ∧
    has_secondary_field d "exit" "desc" .tStr false = true ∧
    has_primary_field d "times_ms" .tDict = true ∧
    has_secondary_field d "times_ms" "total" .tFloat false = true ∧
    has_secondary_field d "times_ms" "user" .tFloat false = true ∧
    has_secondary_field d "times_ms" "sys" .tFloat false = true := by
  simp only [schema_check, Bool.and_eq_true] at hs
  tauto

/-- A schema-valid report has a string `exit.type`. -/
theorem schema_exit_type {d : PyVal} (hs : schema_check d = true) :
    ∃ s, (d.getKey "exit").lookup? "type" = some (.vstr s) := by
  obtain ⟨v, hv, hty⟩ := has_secondary_field_strict (schema_unpack hs).2.2.2.2.1
  obtain ⟨s, rfl⟩ := isStr_iff.mp hty
  exact ⟨s, hv⟩

/-- A schema-valid report has an `exit.repr` that is an int (or bool) or an
explicit null. -/
theorem schema_exit_repr {d : PyVal} (hs : schema_check d = true) :
    ∃ v, (d.getKey "exit").lookup? "repr" = some v ∧
      (pyIsInstance v .tInt = true ∨ v = .vnull) := by
  obtain ⟨v, hv, hty⟩ :=
    has_secondary_field_iff.mp (schema_unpack hs).2.2.2.2.2.1
  exact ⟨v, hv, by tauto⟩

/-- A schema-valid report has a string `exit.desc`. -/
theorem schema_exit_desc {d : PyVal} (hs : schema_check d = true) :
    ∃ s, (d.getKey "exit").lookup? "desc" = some (.vstr s) := by
  obtain ⟨v, hv, hty⟩ :=
    has_secondary_field_strict (schema_unpack hs).2.2.2.2.2.2.1
  obtain ⟨s, rfl⟩ := isStr_iff.mp hty
  exact ⟨s, hv⟩

/-- A schema-valid report has a float `times_ms.total`. -/
theorem schema_times_total {d : PyVal} (hs : schema_check d = true) :
    ∃ q, (d.getKey "times_ms").lookup? "total" = some (.vfloat q) := by
  obtain ⟨v, hv, hty⟩ :=
    has_secondary_field_strict (schema_unpack hs).2.2.2.2.2.2.2.2.1
  obtain ⟨q, rfl⟩ := isFloat_iff.mp hty
  exact ⟨q, hv⟩

theorem has_primary_field_iff {d : PyVal} {k : String} {ty : PyType} :
    has_primary_field d k ty = true ↔
      ∃ v, d.lookup? k = some v ∧ pyIsInstance v ty = true := by
  cases h : d.lookup? k with
  | none => simp [has_primary_field, h]
  | some v => simp [has_primary_field, h]

/-- Accept-iff for a test item whose desc expectation is a literal string and
whose expected repr is an integer other than 0 and 1 (so that Python's
numeric `==` cannot be satisfied by a boolean). -/
theorem lit_item_accept_iff (item : TestItem) (e : Int) (s : String)
    (pred : Rat → Prop) [DecidablePred pred]
    (hce : item.child_exit_desc = .lit s)
    (hre : item.child_exit_repr = some e) (he0 : e ≠ 0) (he1 : e ≠ 1)
    (htime : ∀ q, item.time q = decide (pred q))
    (d : PyVal) (hg : generic_checks item d = true) :
    (run_one_checks item d = .ok true ↔
      ((d.getKey "exit").lookup? "type" = some (.vstr item.child_exit) ∧
       (d.getKey "exit").lookup? "repr" = some (.vint e) ∧
       (d.getKey "exit").lookup? "desc" = some (.vstr s) ∧
       ∃ t : Rat, (d.getKey "times_ms").lookup? "total" = some (.vfloat t) ∧
         pred t)) := by
  have hs : schema_check d = true := by
    simp only [generic_checks, Bool.and_eq_true] at hg
    exact hg.1.1.1.1
  obtain ⟨st, hst⟩ := schema_exit_type hs
  obtain ⟨vr, hvr, hvrty⟩ := schema_exit_repr hs
  obtain ⟨sd, hsd⟩ := schema_exit_desc hs
  obtain ⟨qt, hqt⟩ := schema_times_total hs
  rw [run_one_checks_ok_of_generic hg, getKey_eq_of_lookup hst,
    getKey_eq_of_lookup hvr, getKey_eq_of_lookup hsd,
    getKey_eq_of_lookup hqt, hst, hvr, hsd, hqt, hce]
  simp only [TestItem.reprPy, hre, DescSpec.check, PyVal.asFloat, htime]
  simp [pyEq_vstr_iff, pyEq_vint_of_intlike hvrty he0 he1]

/-- Accept-iff for the sigkill test item shape: desc is checked against the
case-insensitive regular expression `.*kill.*`. -/
theorem kill_item_accept_iff (item : TestItem) (e : Int)
    (pred : Rat → Prop) [DecidablePred pred]
    (hce : item.child_exit_desc = .killRegexCI)
    (hre : item.child_exit_repr = some e) (he0 : e ≠ 0) (he1 : e ≠ 1)
    (htime : ∀ q, item.time q = decide (pred q))
    (d : PyVal) (hg : generic_checks item d = true) :
    (run_one_checks item d = .ok true ↔
      ((d.getKey "exit").lookup? "type" = some (.vstr item.child_exit) ∧
       (d.getKey "exit").lookup? "repr" = some (.vint e) ∧
       (∃ sd, (d.getKey "exit").lookup? "desc" = some (.vstr sd) ∧
         matchKillCI sd = true) ∧
       ∃ t : Rat, (d.getKey "times_ms").lookup? "total" = some (.vfloat t) ∧
         pred t)) := by
  have hs : schema_check d = true := by
    simp only [generic_checks, Bool.and_eq_true] at hg
    exact hg.1.1.1.1
  obtain ⟨st, hst⟩ := schema_exit_type hs
  obtain ⟨vr, hvr, hvrty⟩ := schema_exit_repr hs
  obtain ⟨sd, hsd⟩ := schema_exit_desc hs
  obtain ⟨qt, hqt⟩ := schema_times_total hs
  rw [run_one_checks_ok_of_generic hg, getKey_eq_of_lookup hst,
    getKey_eq_of_lookup hvr, getKey_eq_of_lookup hsd,
    getKey_eq_of_lookup hqt, hst, hvr, hsd, hqt, hce]
  simp only [TestItem.reprPy, hre, DescSpec.check, PyVal.asStr, PyVal.asFloat,
    htime]
  simp [pyEq_vstr_iff, pyEq_vint_of_intlike hvrty he0 he1]

/-- Accept-only-if for a test item whose expected repr is `None` and whose
desc expectation is a literal string. -/
theorem null_repr_item_accept_only_if (item : TestItem) (s : String)
    (pred : Rat → Prop) [DecidablePred pred]
    (hce : item.child_exit_desc = .lit s)
    (hre : item.child_exit_repr = none)
    (htime : ∀ q, item.time q = decide (pred q))
    (d : PyVal) (h : run_one_checks item d = .ok true) :
    ((d.getKey "exit").lookup? "type" = some (.vstr item.child_exit) ∧
     (d.getKey "exit").lookup? "repr" = some .vnull ∧
     (d.getKey "exit").lookup? "desc" = some (.vstr s) ∧
     ∃ t : Rat, (d.getKey "times_ms").lookup? "total" = some (.vfloat t) ∧
       pred t) := by
  obtain ⟨hs, h4, hm, he3, ht3, hty, hrp, hdc, hti⟩ :=
    (run_one_checks_eq_ok_true_iff item d).mp h
  obtain ⟨st, hst⟩ := schema_exit_type hs
  obtain ⟨vr, hvr, hvrty⟩ := schema_exit_repr hs
  obtain ⟨sd, hsd⟩ := schema_exit_desc hs
  obtain ⟨qt, hqt⟩ := schema_times_total hs
  rw [getKey_eq_of_lookup hst, pyEq_vstr_iff] at hty
  rw [getKey_eq_of_lookup hvr] at hrp
  rw [getKey_eq_of_lookup hsd, hce] at hdc
  rw [getKey_eq_of_lookup hqt] at hti
  simp only [TestItem.reprPy, hre] at hrp
  rw [pyEq_vnull_iff] at hrp
  simp only [DescSpec.check, pyEq_vstr_iff] at hdc
  rw [htime] at hti
  simp only [PyVal.vstr.injEq] at hty hdc
  subst hty hrp hdc
  refine ⟨hst, hvr, hsd, qt, hqt, of_decide_eq_true ?_⟩
  simpa [PyVal.asFloat] using hti

-- Spec-side schema definitions (used only to compare the validator against
-- the schema stated in the specification, §6 and §4.5).

/-- A JSON integer proper (a boolean is not one). -/
def isVInt : PyVal → Bool
  | .vint _ => true
  | _ => false

/-- An integer in Python's `isinstance` sense: includes booleans. -/
def intLike : PyVal → Bool
  | .vint _ => true
  | .vbool _ => true
  | _ => false

def isVStr : PyVal → Bool
  | .vstr _ => true
  | _ => false

def isVFloat : PyVal → Bool
  | .vfloat _ => true
  | _ => false

/-- A predicate on the value of a field that must be present. -/
def optHolds (p : PyVal → Bool) : Option PyVal → Bool
  | some v => p v
  | none => false

/-- The `exit` object of the schema: exactly `type` (string), `repr`
(integer-valued per `intOK`, or explicit null), `desc` (string). -/
def exitShapeWith (intOK : PyVal → Bool) (v : PyVal) : Bool :=
  match v with
  | .vdict fs =>
      (fs.length == 3) && optHolds isVStr (lookupKey "type" fs)
        && optHolds (fun r => intOK r || isNull r) (lookupKey "repr" fs)
        && optHolds isVStr (lookupKey "desc" fs)
  | _ => false

/-- The `times_ms` object of the schema: exactly `total`, `user`, `sys`,
all floats. -/
def timesShape (v : PyVal) : Bool :=
  match v with
  | .vdict fs =>
      (fs.length == 3) && optHolds isVFloat (lookupKey "total" fs)
        && optHolds isVFloat (lookupKey "user" fs)
        && optHolds isVFloat (lookupKey "sys" fs)
  | _ => false

/-- The report schema with a parameterised notion of "integer": exactly four
top-level fields `pid`, `maxrss_kb`, `exit`, `times_ms` with the sub-shapes
above. -/
def specReportShapeWith (intOK : PyVal → Bool) (d : PyVal) : Bool :=
  match d with
  | .vdict fs =>
      (fs.length == 4) && optHolds intOK (lookupKey "pid" fs)
        && optHolds intOK (lookupKey "maxrss_kb" fs)
        && optHolds (exitShapeWith intOK) (lookupKey "exit" fs)
        && optHolds timesShape (lookupKey "times_ms" fs)
  | _ => false

/-- The report schema exactly as the specification words it: `pid`,
`maxrss_kb` and a non-null `exit.repr` are JSON integers (a JSON boolean is
not an integer). -/
def specReportShape : PyVal → Bool := specReportShapeWith isVInt

/-- The report schema with "integer" read the way Python's `isinstance`
reads it (booleans included). -/
def specReportShapeBoolInt : PyVal → Bool := specReportShapeWith intLike

-- Helper facts relating the Python `isinstance` checks to the spec-side
-- field predicates.

theorem intLike_of_isinstance {v : PyVal} (h : pyIsInstance v .tInt = true) :
    intLike v = true := by
  cases v <;> simp_all [pyIsInstance, intLike]

theorem isVStr_of_isinstance {v : PyVal} (h : pyIsInstance v .tStr = true) :
    isVStr v = true := by
  cases v <;> simp_all [pyIsInstance, isVStr]

theorem isVFloat_of_isinstance {v : PyVal} (h : pyIsInstance v .tFloat = true) :
    isVFloat v = true := by
  cases v <;> simp_all [pyIsInstance, isVFloat]

-- Concrete reports used as witnesses and counterexamples.

/-- A report the timeout items accept. -/
def report_timeout : PyVal :=
  mkReport 4242 2000 "timeout" (.vint 1500) "child runtime limit (ms)" 1600 1000 600

/-- A report the sigkill item accepts. -/
def report_signal : PyVal :=
  mkReport 4242 2000 "signal" (.vint 9) "Killed - 9" 10 6 4

/-- A report meeting the sigkill item's three exit conditions (signal / 9 /
kill-matching desc) whose total time fails the item's time predicate. -/
def report_signal_slow : PyVal :=
  mkReport 4242 2000 "signal" (.vint 9) "Killed - 9" 600 300 300

/-- A report the quick item accepts. -/
def report_quick : PyVal :=
  mkReport 4242 2000 "return" (.vint 0) "exit code" 10 6 4

/-- A report the sleep item accepts. -/
def report_sleep : PyVal :=
  mkReport 4242 2000 "return" (.vint 0) "exit code" 12 8 4

/-- A report the missing/non-executable items accept. -/
def report_quit : PyVal :=
  mkReport 4242 2000 "quit" .vnull "child error before exec" 5 3 2

/-- A report whose `pid` is the JSON boolean `true` (otherwise matching the
quick item's expectations). -/
def report_bool_pid : PyVal :=
  .vdict [("pid", .vbool true), ("maxrss_kb", .vint 2000),
          ("exit", .vdict [("type", .vstr "return"), ("repr", .vint 0),
                           ("desc", .vstr "exit code")]),
          ("times_ms", .vdict [("total", .vfloat 10), ("user", .vfloat 6),
                               ("sys", .vfloat 4)])]

/-- A report whose total time is not the sum of its user and sys times. -/
def report_total_not_sum : PyVal :=
  mkReport 4242 2000 "return" (.vint 0) "exit code" 10 100 200

/-- A `quit`-shaped report with `maxrss_kb` equal to zero. -/
def report_zero_maxrss : PyVal :=
  mkReport 4242 0 "quit" .vnull "child error before exec" 5 3 2

/-- A well-typed report for the quick item whose `maxrss_kb` fails the
`maxrss` range predicate. -/
def report_small_maxrss : PyVal :=
  mkReport 4242 0 "return" (.vint 0) "exit code" 10 6 4

/-- A well-typed report for the quick item whose `times_ms.total` fails the
`time` predicate. -/
def report_large_total : PyVal :=
  mkReport 4242 2000 "return" (.vint 0) "exit code" 600 300 300

/-- C1 (counterexample): the claim that a report is accepted only if `pid` is
an integer — any wrongly typed field causing `run_one` to return `False` —
fails on the code: a report whose `pid` is the JSON boolean `true`, which is
not a JSON integer (the spec-side `specReportShape` rejects it), passes every
content check of the `samples/quick.py` test item, because Python's
`isinstance(True, int)` holds. -/
theorem run_one_accepts_boolean_pid :
    run_one_checks test_quick_py report_bool_pid = .ok true ∧
    specReportShape report_bool_pid = false :=
  ⟨rfl, rfl⟩

/-- C1 (amended): a report accepted by the content checks of any test item
matches the specification's four-field schema with "integer" read the way
Python's `isinstance` reads it (booleans included): exactly four top-level
fields `pid` (int/bool), `maxrss_kb` (int/bool), `exit` — an object of
exactly `type` (string), `repr` (int/bool or explicit null), `desc`
(string) — and `times_ms` — an object of exactly `total`, `user`, `sys`
(floats).  Contrapositively, a missing field, extra field, or (in that
sense) wrongly typed field prevents `run_one` from returning `True`. -/
theorem accepted_report_matches_schema :
    ∀ (item : TestItem) (d : PyVal), run_one_checks item d = .ok true →
      specReportShapeBoolInt d = true := by
  intro item d h
  obtain ⟨hs, h4, hm, he3, ht3, -, -, -, -⟩ :=
    (run_one_checks_eq_ok_true_iff item d).mp h
  obtain ⟨hdict, hpid, hmx, hexit, htype, hrepr, hdesc, htms, htot, huser, hsys⟩ :=
    schema_unpack hs
  obtain ⟨vp, hvp, hvpty⟩ := has_primary_field_iff.mp hpid
  obtain ⟨vm, hvm, hvmty⟩ := has_primary_field_iff.mp hmx
  obtain ⟨ve, hve, hvety⟩ := has_primary_field_iff.mp hexit
  obtain ⟨vt, hvt, hvtty⟩ := has_primary_field_iff.mp htms
  obtain ⟨v1, hv1, hv1ty⟩ := has_secondary_field_strict htype
  obtain ⟨v2, hv2, hv2ty⟩ := has_secondary_field_iff.mp hrepr
  obtain ⟨v3, hv3, hv3ty⟩ := has_secondary_field_strict hdesc
  obtain ⟨v4, hv4, hv4ty⟩ := has_secondary_field_strict htot
  obtain ⟨v5, hv5, hv5ty⟩ := has_secondary_field_strict huser
  obtain ⟨v6, hv6, hv6ty⟩ := has_secondary_field_strict hsys
  rw [getKey_eq_of_lookup hve] at hv1 hv2 hv3 he3
  rw [getKey_eq_of_lookup hvt] at hv4 hv5 hv6 ht3
  cases d with
  | vdict fs =>
      cases ve with
      | vdict efs =>
          cases vt with
          | vdict tfs =>
              simp only [PyVal.lookup?] at hvp hvm hve hvt hv1 hv2 hv3 hv4 hv5 hv6
              simp only [PyVal.size] at h4 he3 ht3
              have hrep2 : (intLike v2 || isNull v2) = true := by
                rcases hv2ty with h' | ⟨-, rfl⟩
                · simp [intLike_of_isinstance h']
                · simp [isNull]
              simp [specReportShapeBoolInt, specReportShapeWith, exitShapeWith,
                timesShape, optHolds, hvp, hvm, hve, hvt, hv1, hv2, hv3, hv4,
                hv5, hv6, h4, he3, ht3, intLike_of_isinstance hvpty,
                intLike_of_isinstance hvmty, isVStr_of_isinstance hv1ty,
                isVStr_of_isinstance hv3ty, isVFloat_of_isinstance hv4ty,
                isVFloat_of_isinstance hv5ty, isVFloat_of_isinstance hv6ty,
                hrep2]
          | vnull => simp [pyIsInstance] at hvtty
          | vbool b => simp [pyIsInstance] at hvtty
          | vint n => simp [pyIsInstance] at hvtty
          | vfloat q => simp [pyIsInstance] at hvtty
          | vstr s => simp [pyIsInstance] at hvtty
          | vlist l => simp [pyIsInstance] at hvtty
      | vnull => simp [pyIsInstance] at hvety
      | vbool b => simp [pyIsInstance] at hvety
      | vint n => simp [pyIsInstance] at hvety
      | vfloat q => simp [pyIsInstance] at hvety
      | vstr s => simp [pyIsInstance] at hvety
      | vlist l => simp [pyIsInstance] at hvety
  | vnull => simp [pyIsInstance] at hdict
  | vbool b => simp [pyIsInstance] at hdict
  | vint n => simp [pyIsInstance] at hdict
  | vfloat q => simp [pyIsInstance] at hdict
  | vstr s => simp [pyIsInstance] at hdict
  | vlist l => simp [pyIsInstance] at hdict

/-- C1 (witness for the amended theorem): a concrete accepted report matches
the amended schema. -/
theorem accepted_report_matches_schema_witness :
    specReportShapeBoolInt report_quick = true :=
  accepted_report_matches_schema test_quick_py report_quick rfl

/-- C2: for the two timeout test items (`samples/infinite.py` and
`samples/infinite.sh`, deadline 1500 ms), a report passing the
item-independent checks (schema shape, field counts, maxrss range) is
accepted if and only if `exit.type = "timeout"`, `exit.repr = 1500` (the
configured limit in ms), `exit.desc = "child runtime limit (ms)"`, and
`times_ms.total ≥ 1500`. -/
theorem timeout_reports_accepted_iff :
    (∀ d : PyVal, generic_checks test_infinite_py d = true →
      (run_one_checks test_infinite_py d = .ok true ↔
        ((d.getKey "exit").lookup? "type" = some (.vstr "timeout") ∧
         (d.getKey "exit").lookup? "repr" = some (.vint 1500) ∧
         (d.getKey "exit").lookup? "desc" =
           some (.vstr "child runtime limit (ms)") ∧
         ∃ t : Rat, (d.getKey "times_ms").lookup? "total" = some (.vfloat t) ∧
           1500 ≤ t))) ∧
    (∀ d : PyVal, generic_checks test_infinite_sh d = true →
      (run_one_checks test_infinite_sh d = .ok true ↔
        ((d.getKey "exit").lookup? "type" = some (.vstr "timeout") ∧
         (d.getKey "exit").lookup? "repr" = some (.vint 1500) ∧
         (d.getKey "exit").lookup? "desc" =
           some (.vstr "child runtime limit (ms)") ∧
         ∃ t : Rat, (d.getKey "times_ms").lookup? "total" = some (.vfloat t) ∧
           1500 ≤ t))) := by
  constructor
  · intro d hg
    exact lit_item_accept_iff test_infinite_py 1500 _ (fun t => 1500 ≤ t) rfl
      rfl (by decide) (by decide) (fun q => rfl) d hg
  · intro d hg
    exact lit_item_accept_iff test_infinite_sh 1500 _ (fun t => 1500 ≤ t) rfl
      rfl (by decide) (by decide) (fun q => rfl) d hg

/-- C2 (witness): a concrete timeout report satisfying the conditions is
accepted. -/
theorem timeout_reports_accepted_iff_witness :
    generic_checks test_infinite_py report_timeout = true ∧
    run_one_checks test_infinite_py report_timeout = .ok true :=
  ⟨rfl, (timeout_reports_accepted_iff.1 report_timeout rfl).mpr
    ⟨rfl, rfl, rfl, 1600, rfl, by norm_num⟩⟩

/-- C3 (counterexample): the claim that a report is accepted if and only if
`exit.type = "signal"`, `exit.repr = 9` and `exit.desc` matches the
case-insensitive pattern `.*kill.*` fails on the code: this report satisfies
all three conditions (and the item-independent checks) but has
`times_ms.total = 600`, which fails the sigkill item's `time` predicate
(`lambda t: t < 500`), so it is not accepted — the failing time branch in
fact raises `KeyError` (cf. C10). -/
theorem slow_signal_report_not_accepted :
    generic_checks test_sigkill_py report_signal_slow = true ∧
    (report_signal_slow.getKey "exit").lookup? "type" =
      some (.vstr "signal") ∧
    (report_signal_slow.getKey "exit").lookup? "repr" = some (.vint 9) ∧
    (report_signal_slow.getKey "exit").lookup? "desc" =
      some (.vstr "Killed - 9") ∧
    matchKillCI "Killed - 9" = true ∧
    run_one_checks test_sigkill_py report_signal_slow ≠ .ok true ∧
    run_one_checks test_sigkill_py report_signal_slow =
      .error (.keyError "times_ms") := by
  refine ⟨rfl, rfl, rfl, rfl, rfl, ?_, rfl⟩
  intro h
  rw [show run_one_checks test_sigkill_py report_signal_slow
      = .error (.keyError "times_ms") from rfl] at h
  exact Except.noConfusion h

/-- C3 (amended): for the `samples/sigkill.py` test item, a report passing
the item-independent checks is accepted if and only if
`exit.type = "signal"`, `exit.repr = 9` (SIGKILL's number), `exit.desc`
matches the case-insensitive pattern `.*kill.*`, **and** `times_ms.total <
500` — the item's time predicate, part of the acceptance condition, which
the frozen claim's biconditional omitted. -/
theorem signal_report_accepted_iff :
    ∀ d : PyVal, generic_checks test_sigkill_py d = true →
      (run_one_checks test_sigkill_py d = .ok true ↔
        ((d.getKey "exit").lookup? "type" = some (.vstr "signal") ∧
         (d.getKey "exit").lookup? "repr" = some (.vint 9) ∧
         (∃ sd, (d.getKey "exit").lookup? "desc" = some (.vstr sd) ∧
           matchKillCI sd = true) ∧
         ∃ t : Rat, (d.getKey "times_ms").lookup? "total" = some (.vfloat t) ∧
           t < 500)) := by
  intro d hg
  exact kill_item_accept_iff test_sigkill_py 9 (fun t => t < 500) rfl rfl
    (by decide) (by decide) (fun q => rfl) d hg

/-- C3 (witness): a concrete signal report satisfying the conditions is
accepted. -/
theorem signal_report_accepted_iff_witness :
    generic_checks test_sigkill_py report_signal = true ∧
    run_one_checks test_sigkill_py report_signal = .ok true :=
  ⟨rfl, (signal_report_accepted_iff report_signal rfl).mpr
    ⟨rfl, rfl, ⟨"Killed - 9", rfl, rfl⟩, 10, rfl, by norm_num⟩⟩

/-- C4: for the missing-program and non-executable test items
(`samples/missing`, `samples/text.txt`), a report is accepted only if
`exit.type = "quit"`, `exit.repr` is an explicit null (present as a key with
value null), `exit.desc = "child error before exec"`, and
`times_ms.total < 50`; contrapositively, any other exit type, non-null repr,
differing desc, or a total of 50 ms or more means the report is not
accepted. -/
theorem quit_reports_accepted_only_if :
    (∀ d : PyVal, run_one_checks test_missing d = .ok true →
      ((d.getKey "exit").lookup? "type" = some (.vstr "quit") ∧
       (d.getKey "exit").lookup? "repr" = some .vnull ∧
       (d.getKey "exit").lookup? "desc" =
         some (.vstr "child error before exec") ∧
       ∃ t : Rat, (d.getKey "times_ms").lookup? "total" = some (.vfloat t) ∧
         t < 50)) ∧
    (∀ d : PyVal, run_one_checks test_text_txt d = .ok true →
      ((d.getKey "exit").lookup? "type" = some (.vstr "quit") ∧
       (d.getKey "exit").lookup? "repr" = some .vnull ∧
       (d.getKey "exit").lookup? "desc" =
         some (.vstr "child error before exec") ∧
       ∃ t : Rat, (d.getKey "times_ms").lookup? "total" = some (.vfloat t) ∧
         t < 50)) := by
  constructor
  · intro d h
    exact null_repr_item_accept_only_if test_missing _ (fun t => t < 50) rfl
      rfl (fun q => rfl) d h
  · intro d h
    exact null_repr_item_accept_only_if test_text_txt _ (fun t => t < 50) rfl
      rfl (fun q => rfl) d h

/-- C4 (witness): the conditions instantiated at a concrete accepted
report. -/
theorem quit_reports_accepted_only_if_witness :
    (report_quit.getKey "exit").lookup? "type" = some (.vstr "quit") ∧
    (report_quit.getKey "exit").lookup? "repr" = some .vnull ∧
    (report_quit.getKey "exit").lookup? "desc" =
      some (.vstr "child error before exec") ∧
    ∃ t : Rat, (report_quit.getKey "times_ms").lookup? "total" =
      some (.vfloat t) ∧ t < 50 :=
  quit_reports_accepted_only_if.1 report_quit rfl

/-- C5 (counterexample): the claim that a `quit` report with zero
`maxrss_kb` is accepted by the validator fails on the code: the `TESTS`
entries for `samples/missing` and `samples/text.txt` require
`maxrss_kb >= 1000` like every other entry, so the zero-maxrss report is not
accepted (its rejection branch in fact raises the faulty-diagnostic
`TypeError`, cf. C10). -/
theorem zero_maxrss_not_accepted :
    run_one_checks test_missing report_zero_maxrss ≠ .ok true ∧
    run_one_checks test_missing report_zero_maxrss = .error .typeError ∧
    report_zero_maxrss.getKey "maxrss_kb" = .vint 0 := by
  refine ⟨?_, rfl, rfl⟩
  intro h
  rw [show run_one_checks test_missing report_zero_maxrss
      = .error .typeError from rfl] at h
  exact Except.noConfusion h

/-- C5 (amended): the validator requires `maxrss_kb ≥ 1000` for the
missing-program and non-executable test cases too — acceptance implies the
reported `maxrss_kb` is at least 1000, exactly as for children that began
executing; it never accepts a zero (or otherwise sub-1000) value. -/
theorem quit_accept_implies_maxrss_ge :
    (∀ d : PyVal, run_one_checks test_missing d = .ok true →
      1000 ≤ (d.getKey "maxrss_kb").asInt) ∧
    (∀ d : PyVal, run_one_checks test_text_txt d = .ok true →
      1000 ≤ (d.getKey "maxrss_kb").asInt) := by
  constructor <;> intro d h <;>
    exact of_decide_eq_true ((run_one_checks_eq_ok_true_iff _ d).mp h).2.2.1

/-- C5 (witness for the amended theorem). -/
theorem quit_accept_implies_maxrss_ge_witness :
    (1000 : Int) ≤ (report_quit.getKey "maxrss_kb").asInt :=
  quit_accept_implies_maxrss_ge.1 report_quit rfl

/-- C6 (counterexample): the claim that the validator rejects any report
whose total time is not the sum of the user and sys fields fails on the
code: `run_one` never compares `times_ms.total` with
`times_ms.user + times_ms.sys`, and this report with total 10, user 100,
sys 200 is accepted by the quick item. -/
theorem accepted_total_ne_user_add_sys :
    run_one_checks test_quick_py report_total_not_sum = .ok true ∧
    (report_total_not_sum.getKey "times_ms").getKey "total" = .vfloat 10 ∧
    (report_total_not_sum.getKey "times_ms").getKey "user" = .vfloat 100 ∧
    (report_total_not_sum.getKey "times_ms").getKey "sys" = .vfloat 200 ∧
    (10 : Rat) ≠ 100 + 200 :=
  ⟨rfl, rfl, rfl, rfl, by norm_num⟩

/-- C6 (amended): the validator does not check `total = user + sys`:
acceptance of a schema-shaped report is independent of the values of
`times_ms.user` and `times_ms.sys` (it only requires them to be floats),
for every test item.  The `total = user + sys` property of real reports is
established by the ctimer supervisor at construction, not by this
validator. -/
theorem acceptance_ignores_user_sys :
    ∀ (item : TestItem) (pid mx : Int) (ty : String) (rp : PyVal)
      (dc : String) (total u s u' s' : Rat),
      run_one_checks item (mkReport pid mx ty rp dc total u s) = .ok true →
      run_one_checks item (mkReport pid mx ty rp dc total u' s') = .ok true := by
  intro item pid mx ty rp dc total u s u' s' h
  have e : run_one_checks item (mkReport pid mx ty rp dc total u s)
      = run_one_checks item (mkReport pid mx ty rp dc total u' s') := rfl
  rw [e] at h
  exact h

/-- C6 (witness for the amended theorem): replacing user/sys of an accepted
report with arbitrary other floats keeps it accepted. -/
theorem acceptance_ignores_user_sys_witness :
    run_one_checks test_quick_py
      (mkReport 4242 2000 "return" (.vint 0) "exit code" 10 999 1) = .ok true :=
  acceptance_ignores_user_sys test_quick_py 4242 2000 "return" (.vint 0)
    "exit code" 10 6 4 999 1 rfl

/-- C7: for the `samples/sleep.py` test item (child sleeps 1.0 s, then
exits 0), a report passing the item-independent checks is accepted if and
only if `exit.type = "return"`, `exit.repr == 0` (Python `==`; satisfied by
the integer 0 and, because bool is a subclass of int, by the boolean
`false`), `exit.desc = "exit code"`, and `times_ms.total < 500` — well below
the one second of elapsed wall time, since off-processor time is excluded
by the supervisor's measurement. -/
theorem sleep_report_accepted_iff :
    ∀ d : PyVal, generic_checks test_sleep_py d = true →
      (run_one_checks test_sleep_py d = .ok true ↔
        ((d.getKey "exit").lookup? "type" = some (.vstr "return") ∧
         pyEq ((d.getKey "exit").getKey "repr") (.vint 0) = true ∧
         (d.getKey "exit").lookup? "desc" = some (.vstr "exit code") ∧
         ∃ t : Rat, (d.getKey "times_ms").lookup? "total" = some (.vfloat t) ∧
           t < 500)) := by
  intro d hg
  have hs : schema_check d = true := by
    simp only [generic_checks, Bool.and_eq_true] at hg
    exact hg.1.1.1.1
  obtain ⟨st, hst⟩ := schema_exit_type hs
  obtain ⟨sd, hsd⟩ := schema_exit_desc hs
  obtain ⟨qt, hqt⟩ := schema_times_total hs
  rw [run_one_checks_ok_of_generic hg, getKey_eq_of_lookup hst,
    getKey_eq_of_lookup hsd, getKey_eq_of_lookup hqt, hst, hsd, hqt,
    show test_sleep_py.child_exit_desc = .lit "exit code" from rfl,
    show test_sleep_py.reprPy = .vint 0 from rfl]
  have htime : ∀ q : Rat, test_sleep_py.time q = decide (q < 500) :=
    fun q => rfl
  simp only [DescSpec.check, PyVal.asFloat, htime]
  simp [pyEq_vstr_iff, show test_sleep_py.child_exit = "return" from rfl]

/-- C7 (witness): a concrete sleep report satisfying the conditions is
accepted. -/
theorem sleep_report_accepted_iff_witness :
    generic_checks test_sleep_py report_sleep = true ∧
    run_one_checks test_sleep_py report_sleep = .ok true :=
  ⟨rfl, (sleep_report_accepted_iff report_sleep rfl).mpr
    ⟨rfl, rfl, rfl, 12, rfl, by norm_num⟩⟩

/-- C8: `run_one` returns `False` whenever the ctimer supervisor process
exits nonzero, for every test item and stats-file state; and it does not
reject a run merely because the child terminated abnormally — with
supervisor exit code 0, a report recording death by SIGKILL is accepted for
the sigkill item. -/
theorem supervisor_exit_code_governs :
    (∀ (item : TestItem) (env : RunEnv), env.exit_code ≠ 0 →
      (run_one item env).1 = .ok false) ∧
    (run_one test_sigkill_py ⟨0, some report_signal⟩).1 = .ok true := by
  constructor
  · intro item env h
    simp [run_one, h]
  · rfl

/-- C8 (witness). -/
theorem supervisor_exit_code_governs_witness :
    (run_one test_quick_py ⟨2, none⟩).1 = .ok false :=
  supervisor_exit_code_governs.1 test_quick_py ⟨2, none⟩ (by decide)

/-- C9: each `run_one` invocation owns its report: when the stats file
(named by the `CTIMER_STATS` variable, `stats.log`) is absent after
supervision, `run_one` returns `False`; when it is present it is removed
immediately after being read, whatever the checks then decide; hence a
later invocation that produces no new report finds no file and returns
`False` — no report content survives to satisfy it. -/
theorem stats_file_lifecycle :
    (∀ item : TestItem, (run_one item ⟨0, none⟩).1 = .ok false) ∧
    (∀ (item : TestItem) (d : PyVal), (run_one item ⟨0, some d⟩).2 = none) ∧
    (∀ (item item' : TestItem) (d : PyVal),
      (run_one item' ⟨0, (run_one item ⟨0, some d⟩).2⟩).1 = .ok false) :=
  ⟨fun _ => rfl, fun _ _ => rfl, fun _ _ _ => rfl⟩

/-- C10: the code evaluated at the failing inputs.  A well-typed report
whose `maxrss_kb` fails the item's `maxrss` predicate does not produce a
diagnostic and a `False` return: the diagnostic itself raises `TypeError`
(`"%d"` applied to the `test_item["maxrss"]` lambda); likewise a report
whose `times_ms.total` fails the `time` predicate raises `KeyError`
(`test_item["times_ms"]` does not exist — the code means
`res_dict["times_ms"]`). -/
theorem failing_check_branches_raise :
    run_one_checks test_quick_py report_small_maxrss = .error .typeError ∧
    run_one_checks test_quick_py report_large_total =
      .error (.keyError "times_ms") :=
  ⟨rfl, rfl⟩
